import Mathlib

/-!
Verification development for the loveuad admin dashboard (admin_app.py).

The Python source is shallowly embedded: strings are lists of characters
(or Lean `String`s where no character surgery is needed), SQL tables are
lists of rows, money amounts are rationals, a read of an external service
is an `Except String` value (an exception carries its message), and the
per-request database transaction of the deletion processor is modelled by
applying its statements to an uncommitted working state that becomes
visible only at commit.
-/

namespace AdminApp

/-- Structural equality on modelled external outcomes is decidable. -/
instance instDecEqExcept {ε α : Type} [DecidableEq ε] [DecidableEq α] :
    DecidableEq (Except ε α)
  | .error e, .error f =>
    if h : e = f then .isTrue (by rw [h]) else .isFalse (by intro hc; cases hc; exact h rfl)
  | .error _, .ok _ => .isFalse (by intro hc; cases hc)
  | .ok _, .error _ => .isFalse (by intro hc; cases hc)
  | .ok x, .ok y =>
    if h : x = y then .isTrue (by rw [h]) else .isFalse (by intro hc; cases hc; exact h rfl)

/-! ## Python numeric helpers -/

/-- Python `int()` applied to a number: truncation toward zero. -/
def pyInt (q : ℚ) : ℤ :=
  if 0 ≤ q then ⌊q⌋ else ⌈q⌉

/-- Python `round()` to an integer: round half to even. -/
def roundHalfEven (q : ℚ) : ℤ :=
  if Int.fract q < 1 / 2 then ⌊q⌋
  else if 1 / 2 < Int.fract q then ⌊q⌋ + 1
  else if ⌊q⌋ % 2 = 0 then ⌊q⌋ else ⌊q⌋ + 1

/-- Python `round(x, 2)` on the decimal value of `x`. -/
def round2 (q : ℚ) : ℚ :=
  (roundHalfEven (q * 100) : ℚ) / 100

/-- Python `round(x, 1)` on the decimal value of `x`. -/
def round1 (q : ℚ) : ℚ :=
  (roundHalfEven (q * 10) : ℚ) / 10

/-! ## Slug generation (admin_app.py lines 33-36) -/

/-- The character class `[a-z0-9]` of the regex in `generate_slug`. -/
def isSlugChar (c : Char) : Bool :=
  (decide ('a' ≤ c) && decide (c ≤ 'z')) || (decide ('0' ≤ c) && decide (c ≤ '9'))

/-- One-pass state machine for `re.sub(r'[^a-z0-9]+', '-', s)`: `inRun`
records that the current maximal run of non-`[a-z0-9]` characters has
already emitted its hyphen. -/
def collapseAux : Bool → List Char → List Char
  | _, [] => []
  | inRun, c :: cs =>
    if isSlugChar c then c :: collapseAux false cs
    else if inRun then collapseAux true cs
    else '-' :: collapseAux true cs

/-- `re.sub(r'[^a-z0-9]+', '-', s)`: every maximal run of characters outside
`[a-z0-9]` is replaced by a single hyphen. -/
def collapseRuns (l : List Char) : List Char :=
  collapseAux false l

/-- Python `str.strip(chars)`: drop matching characters from both ends. -/
def pyStrip (p : Char → Bool) (l : List Char) : List Char :=
  List.rdropWhile p (l.dropWhile p)

/-- `slug.strip('-')` in `generate_slug`. -/
def stripHyphen (l : List Char) : List Char :=
  pyStrip (fun c => c == '-') l

/-- `generate_slug` (admin_app.py lines 33-36) over the character list of the
title: lower-case, replace every run of non-`[a-z0-9]` characters by one
hyphen, strip leading and trailing hyphens.  `Char.toLower` models
`str.lower()` (faithful on ASCII; the slug keeps only ASCII anyway). -/
def generate_slug (title : List Char) : List Char :=
  stripHyphen (collapseRuns (title.map Char.toLower))

/-- The maximal runs of `[a-z0-9]` characters of a string, in order. -/
def slugGroups : List Char → List (List Char)
  | [] => []
  | c :: cs =>
    if isSlugChar c then (c :: cs.takeWhile isSlugChar) :: slugGroups (cs.dropWhile isSlugChar)
    else slugGroups (cs.dropWhile (fun d => !isSlugChar d))
termination_by l => l.length
decreasing_by
  · simp only [List.length_cons]
    have h : (cs.dropWhile isSlugChar).length ≤ cs.length :=
      (List.dropWhile_suffix _).sublist.length_le
    omega
  · simp only [List.length_cons]
    have h : (cs.dropWhile (fun d => !isSlugChar d)).length ≤ cs.length :=
      (List.dropWhile_suffix _).sublist.length_le
    omega

/-- The slug as the spec phrases it: lower-case the title, then replacing
every maximal run of non-`[a-z0-9]` characters by one hyphen and trimming
the ends leaves exactly the alphanumeric runs, joined by single hyphens. -/
def slugSpec (title : List Char) : List Char :=
  List.intercalate ['-'] (slugGroups (title.map Char.toLower))

/-! ## Blog post store (admin_app.py lines 605-683)

The `blog_posts` table is a list of rows; its `UNIQUE` constraint on `slug`
is modelled inside the insert: an insert whose slug is already present
raises, which the endpoint converts to a 500 response. -/

structure BlogPost where
  id : Nat
  title : List Char
  slug : List Char
  content : List Char
  excerpt : List Char
  meta_description : List Char
  keywords : List Char
  author : List Char
  featured_image : List Char
  status : String
  published_at : Option Nat
  created_at : Nat
  updated_at : Nat
deriving DecidableEq

/-- Python `str.strip()` (whitespace). -/
def stripWhitespace (l : List Char) : List Char :=
  pyStrip Char.isWhitespace l

/-- The JSON body of a create request; a missing key is `none`.
`data.get('title', '')` and `data.get('content', '')` make the two required
fields default to the empty string. -/
structure CreateData where
  title : List Char
  content : List Char
  excerpt : Option (List Char)
  meta_description : Option (List Char)
  keywords : Option (List Char)
  author : Option (List Char)
  featured_image : Option (List Char)
  status : Option String
deriving DecidableEq

/-- `data.get(k) or dflt`: a missing key or a falsy (empty) value picks the
default. -/
def orEmpty (v : Option (List Char)) (dflt : List Char) : List Char :=
  match v with
  | some e => if e.isEmpty then dflt else e
  | none => dflt

inductive CreateResult where
  | unauthorized
  | badRequest (msg : String)
  | serverError (msg : String)
  | created (id : Nat) (slug : List Char)
deriving DecidableEq

def slugExists (store : List BlogPost) (s : List Char) : Bool :=
  store.any (fun p => p.slug == s)

/-- The decimal digits of `int(datetime.now().timestamp())` as appended by
the collision branch. -/
def natDigits (n : Nat) : List Char :=
  (toString n).data

/-- `create_blog_post` (admin_app.py lines 605-634).  `now` is
`datetime.now()`, `ts` is the Unix timestamp used on slug collision, `newId`
the serial id the insert returns. -/
def create_blog_post (authed : Bool) (store : List BlogPost) (d : CreateData)
    (now ts newId : Nat) : CreateResult × List BlogPost :=
  if ¬ authed then (.unauthorized, store)
  else
    let title := stripWhitespace d.title
    let content := stripWhitespace d.content
    if title = [] ∨ content = [] then (.badRequest "Title and content required", store)
    else
      let slug0 := generate_slug title
      let slug := if slugExists store slug0 then slug0 ++ '-' :: natDigits ts else slug0
      let status := d.status.getD "draft"
      let published_at := if status = "published" then some now else none
      if slugExists store slug then (.serverError "duplicate key value", store)
      else
        let post : BlogPost :=
          { id := newId, title := title, slug := slug, content := content,
            excerpt := orEmpty d.excerpt (content.take 200),
            meta_description := orEmpty d.meta_description (content.take 160),
            keywords := d.keywords.getD [],
            author := d.author.getD ("Kanchan Ghosh".data),
            featured_image := d.featured_image.getD [],
            status := status, published_at := published_at,
            created_at := now, updated_at := now }
        (.created newId slug, store ++ [post])

/-- The JSON body of an update request; `none` means the key is absent. -/
structure UpdateData where
  title : Option (List Char)
  content : Option (List Char)
  excerpt : Option (List Char)
  meta_description : Option (List Char)
  keywords : Option (List Char)
  featured_image : Option (List Char)
  status : Option String
deriving DecidableEq

/-- The `SET` clauses accumulated by `update_blog_post` applied to one row;
`stamp` records whether the publish branch decided to set `published_at`. -/
def applyUpdates (d : UpdateData) (stamp : Bool) (now : Nat) (p : BlogPost) : BlogPost :=
  { p with
    title := d.title.getD p.title
    slug := match d.title with | some t => generate_slug t | none => p.slug
    content := d.content.getD p.content
    excerpt := d.excerpt.getD p.excerpt
    meta_description := d.meta_description.getD p.meta_description
    keywords := d.keywords.getD p.keywords
    featured_image := d.featured_image.getD p.featured_image
    status := d.status.getD p.status
    published_at := if stamp then some now else p.published_at
    updated_at := now }

inductive UpdateResult where
  | unauthorized
  | ok
  | serverError (msg : String)
deriving DecidableEq

/-- `update_blog_post` (admin_app.py lines 636-683).  When the body carries
`status = 'published'` the handler first reads the row's `published_at` and
adds the stamp clause only if it is null; reading a missing row raises there
(`post['published_at']` on `None`), which the handler turns into a 500.  In
every other case the `UPDATE` simply matches zero or more rows. -/
def update_blog_post (authed : Bool) (store : List BlogPost) (post_id : Nat)
    (d : UpdateData) (now : Nat) : UpdateResult × List BlogPost :=
  if ¬ authed then (.unauthorized, store)
  else
    match d.status with
    | some s =>
      if s = "published" then
        match store.find? (fun p => p.id == post_id) with
        | none => (.serverError "NoneType is not subscriptable", store)
        | some post =>
          let stamp := post.published_at.isNone
          (.ok, store.map (fun p => if p.id = post_id then applyUpdates d stamp now p else p))
      else (.ok, store.map (fun p => if p.id = post_id then applyUpdates d false now p else p))
    | none => (.ok, store.map (fun p => if p.id = post_id then applyUpdates d false now p else p))

/-! ## User metrics (admin_app.py lines 384-419) -/

/-- One row of the daily-signups query: `DATE(created_at), COUNT(*)` over the
last 30 days, grouped by day, ordered date descending.  `daysAgo` is the
calendar distance of the row's date from today, so the `DESC` order makes
`daysAgo` strictly increase along the list, `COUNT(*)` makes every count at
least 1, and the 30-day window bounds `daysAgo` below 30. -/
structure SignupRow where
  daysAgo : Nat
  count : Nat
deriving DecidableEq

/-- `recent_7d` (line 399): sum of the first seven rows, or of all rows when
fewer than seven exist. -/
def recent_7d (daily_signups : List SignupRow) : Nat :=
  if 7 ≤ daily_signups.length then ((daily_signups.take 7).map SignupRow.count).sum
  else (daily_signups.map SignupRow.count).sum

/-- `previous_7d` (line 400): sum of rows 8..14, or the constant 1 when fewer
than fourteen rows exist. -/
def previous_7d (daily_signups : List SignupRow) : Nat :=
  if 14 ≤ daily_signups.length then (((daily_signups.drop 7).take 7).map SignupRow.count).sum
  else 1

/-- `growth_rate` (line 401). -/
def growth_rate (daily_signups : List SignupRow) : ℚ :=
  if 0 < previous_7d daily_signups then
    ((recent_7d daily_signups : ℚ) - (previous_7d daily_signups : ℚ))
      / (previous_7d daily_signups : ℚ) * 100
  else 0

/-- The true prior-week signup count: the summed counts of the days lying 7
to 13 days back, all of which sit inside the fetched 30-day window. -/
def truePriorWeekCount (daily_signups : List SignupRow) : Nat :=
  ((daily_signups.filter (fun r => decide (7 ≤ r.daysAgo ∧ r.daysAgo < 14))).map
    SignupRow.count).sum

/-- What the daily-signups query can actually return: strictly ascending
`daysAgo` below 30 and positive counts. -/
def ValidSignups (ds : List SignupRow) : Prop :=
  List.Pairwise (fun a b => a.daysAgo < b.daysAgo) ds ∧
    ∀ r ∈ ds, 1 ≤ r.count ∧ r.daysAgo < 30

/-- The inputs of `fetch_user_metrics`, fetched by its five queries. -/
structure UserDbData where
  total_users : Nat
  active_once_7d : Nat
  active_thrice_7d : Nat
  daily_signups : List SignupRow
  retained : Nat
deriving DecidableEq

/-- The mapping returned by `fetch_user_metrics`: the exception branch keeps
only `total_users` and `error`, so the other keys are optional.  The
presentational `daily_signups` string list is not modelled. -/
structure UserMetricsResult where
  total_users : Nat
  active_once_7d : Option Nat
  active_thrice_7d : Option Nat
  active_once_pct : Option ℚ
  active_thrice_pct : Option ℚ
  growth_rate : Option ℚ
  retention_rate : Option ℚ
  signups_7d : Option Nat
  signups_prev_7d : Option Nat
  error : Option String
deriving DecidableEq

/-- Whether the request's database connection was opened and whether some
exit path closed it. -/
structure ConnTrace where
  opened : Bool
  closed : Bool
deriving DecidableEq

/-- `fetch_user_metrics` (admin_app.py lines 384-419).  `get_db()` succeeds
and the whole query batch either returns data or raises.  The `except`
branch returns the sentinel without ever reaching `conn.close()`, so the
trace on that path records the connection as never closed. -/
def fetch_user_metrics (query : Except String UserDbData) : UserMetricsResult × ConnTrace :=
  match query with
  | .error e =>
    ({ total_users := 0, active_once_7d := none, active_thrice_7d := none,
       active_once_pct := none, active_thrice_pct := none, growth_rate := none,
       retention_rate := none, signups_7d := none, signups_prev_7d := none,
       error := some e },
     { opened := true, closed := false })
  | .ok d =>
    ({ total_users := d.total_users,
       active_once_7d := some d.active_once_7d,
       active_thrice_7d := some d.active_thrice_7d,
       active_once_pct :=
         some (if 0 < d.total_users then round1 ((d.active_once_7d : ℚ) / d.total_users * 100) else 0),
       active_thrice_pct :=
         some (if 0 < d.total_users then round1 ((d.active_thrice_7d : ℚ) / d.total_users * 100) else 0),
       growth_rate := some (round1 (growth_rate d.daily_signups)),
       retention_rate :=
         some (round1 (if 0 < d.active_once_7d then (d.retained : ℚ) / d.active_once_7d * 100 else 0)),
       signups_7d := some (recent_7d d.daily_signups),
       signups_prev_7d := some (previous_7d d.daily_signups),
       error := none },
     { opened := true, closed := true })

/-! ## External metric collectors (admin_app.py lines 196-571)

Each collector is a total function from the outcome of its external fetch to
the mapping the Python function returns.  A mapping key that some branch
omits is an `Option` field, absent = `none`. -/

structure GcpConfig where
  project_id : String
  billing_account : String
  dataset : String
deriving DecidableEq

/-- The mapping returned by `fetch_gcp_billing`.  Neither the missing-config
branch nor the exception branch carries an `error` key: the failure text
goes into `source`. -/
structure GcpBillingResult where
  cloud_run : ℚ
  cloud_sql : ℚ
  networking : Option ℚ
  storage : Option ℚ
  total : ℚ
  source : String
  error : Option String
deriving DecidableEq

/-- `costs.get(name, 0)` on the per-service dict (service names are distinct
because the query groups by them). -/
def lookupCost (rows : List (String × ℚ)) (key : String) : ℚ :=
  match rows.find? (fun r => r.fst == key) with
  | some r => r.snd
  | none => 0

/-- `fetch_gcp_billing` (admin_app.py lines 303-331); the query yields
`(service_name, total_cost)` rows. -/
def fetch_gcp_billing (cfg : GcpConfig) (query : Except String (List (String × ℚ))) :
    GcpBillingResult :=
  if cfg.project_id = "" ∨ cfg.billing_account = "" ∨ cfg.dataset = "" then
    { cloud_run := 0, cloud_sql := 0, networking := none, storage := none,
      total := 0, source := "No GCP billing config", error := none }
  else
    match query with
    | .ok costs =>
      { cloud_run := round2 (lookupCost costs "Cloud Run"),
        cloud_sql := round2 (lookupCost costs "Cloud SQL"),
        networking := some (round2 (lookupCost costs "Networking")),
        storage := some (round2 (lookupCost costs "Cloud Storage")),
        total := round2 ((costs.map Prod.snd).sum),
        source := "BigQuery (REAL)", error := none }
    | .error e =>
      { cloud_run := 0, cloud_sql := 0, networking := none, storage := none,
        total := 0, source := "Error: " ++ e, error := none }

structure TwilioCall where
  duration : Option Nat
deriving DecidableEq

structure TwilioResult where
  total_calls : Nat
  total_minutes : Option ℚ
  avg_duration : Option ℚ
  cost : ℚ
  balance : Option ℚ
  error : Option String
deriving DecidableEq

/-- `fetch_twilio_metrics` (admin_app.py lines 276-300); `0.013` dollars per
minute is `13 / 1000`.  The inner balance fetch has its own bare `except`
defaulting to 0. -/
def fetch_twilio_metrics (sid authTok : String) (calls : Except String (List TwilioCall))
    (balanceQuery : Except String ℚ) : TwilioResult :=
  if sid = "" ∨ authTok = "" then
    { total_calls := 0, total_minutes := none, avg_duration := none, cost := 0,
      balance := none, error := some "No Twilio credentials" }
  else
    match calls with
    | .error e =>
      { total_calls := 0, total_minutes := none, avg_duration := none, cost := 0,
        balance := some 0, error := some e }
    | .ok cs =>
      let total_calls := cs.length
      let total_seconds := (cs.map (fun c => c.duration.getD 0)).sum
      let total_minutes : ℚ := (total_seconds : ℚ) / 60
      let cost := total_minutes * (13 / 1000)
      let balance : ℚ := match balanceQuery with | .ok b => b | .error _ => 0
      { total_calls := total_calls,
        total_minutes := some (round2 total_minutes),
        avg_duration := some (if 0 < total_calls then round2 (total_minutes / total_calls) else 0),
        cost := round2 cost,
        balance := some balance, error := none }

structure GeminiUsageRow where
  query_type : String
  total_input : Option Nat
  total_output : Option Nat
  count : Nat
deriving DecidableEq

structure GeminiResult where
  total_queries : Nat
  total_scans : Nat
  input_tokens : Option Nat
  output_tokens : Option Nat
  total_tokens : Option Nat
  cost : ℚ
  error : Option String
deriving DecidableEq

/-- The accumulation loop of `fetch_gemini_metrics`:
`(total_input, total_output, queries, scans)`. -/
def geminiFold (rows : List GeminiUsageRow) : Nat × Nat × Nat × Nat :=
  rows.foldl (fun acc row =>
    (acc.1 + row.total_input.getD 0,
     acc.2.1 + row.total_output.getD 0,
     if row.query_type = "query" then row.count else acc.2.2.1,
     if row.query_type = "scan" then row.count else acc.2.2.2)) (0, 0, 0, 0)

/-- `fetch_gemini_metrics` (admin_app.py lines 356-381); `0.075` and `0.30`
per million tokens are `75 / 1000` and `30 / 100`. -/
def fetch_gemini_metrics (usage : Except String (List GeminiUsageRow)) : GeminiResult :=
  match usage with
  | .error e =>
    { total_queries := 0, total_scans := 0, input_tokens := none, output_tokens := none,
      total_tokens := none, cost := 0, error := some e }
  | .ok rows =>
    let acc := geminiFold rows
    let input_cost : ℚ := (acc.1 : ℚ) / 1000000 * (75 / 1000)
    let output_cost : ℚ := (acc.2.1 : ℚ) / 1000000 * (30 / 100)
    { total_queries := acc.2.2.1, total_scans := acc.2.2.2,
      input_tokens := some acc.1, output_tokens := some acc.2.1,
      total_tokens := some (acc.1 + acc.2.1),
      cost := round2 (input_cost + output_cost), error := none }

/-- One Cloud Run log entry as the collector consumes it: its age in hours
and its payload text. -/
structure LogEntry where
  age_hours : ℚ
  message : List Char
  severity : String
deriving DecidableEq

/-- Python's `needle in haystack` on strings. -/
def containsSub (needle hay : List Char) : Bool :=
  hay.tails.any (fun t => needle.isPrefixOf t)

/-- The `error_type` classification chain of `fetch_cloud_run_errors`. -/
def classifyError (message : List Char) : String :=
  if containsSub ("TypeError".data) message then "TypeError"
  else if containsSub ("KeyError".data) message then "KeyError"
  else if containsSub ("ValueError".data) message then "ValueError"
  else if containsSub ("ConnectionError".data) message then "ConnectionError"
  else if containsSub ("TimeoutError".data) message then "TimeoutError"
  else if containsSub ("500".data) message then "ServerError"
  else if containsSub ("404".data) message then "NotFound"
  else if containsSub ("503".data) message then "ServiceUnavailable"
  else "Error"

/-- `error_types[t] = error_types.get(t, 0) + 1` preserving insertion
order. -/
def bumpType (acc : List (String × Nat)) (k : String) : List (String × Nat) :=
  if acc.any (fun e => e.fst == k) then
    acc.map (fun e => if e.fst == k then (e.fst, e.snd + 1) else e)
  else acc ++ [(k, 1)]

/-- The mapping returned by `fetch_cloud_run_errors`; the `recent` entry
dicts are kept only as their count, and the presentational descending sort
of `by_type` is not modelled. -/
structure ErrorLogResult where
  errors_24h : Nat
  errors_7d : Nat
  unresolved : Nat
  recent_count : Nat
  by_type : List (String × Nat)
  error : Option String
  source : String
deriving DecidableEq

/-- `fetch_cloud_run_errors` (admin_app.py lines 196-273). -/
def fetch_cloud_run_errors (entries : Except String (List LogEntry)) : ErrorLogResult :=
  match entries with
  | .error e =>
    { errors_24h := 0, errors_7d := 0, unresolved := 0, recent_count := 0,
      by_type := [], error := some e, source := "Error fetching logs" }
  | .ok es =>
    let errors_7d := es.length
    let errors_24h := (es.filter (fun en => decide (en.age_hours ≤ 24))).length
    { errors_24h := errors_24h, errors_7d := errors_7d, unresolved := errors_7d,
      recent_count := min es.length 50,
      by_type := es.foldl (fun acc en => bumpType acc (classifyError en.message)) [],
      error := none, source := "Cloud Run Logs" }

structure DbRawData where
  db_bytes : Nat
  active_connections : Nat
  tables : List (String × Nat)
deriving DecidableEq

structure DatabaseResult where
  size_gb : ℚ
  size_bytes : Option Nat
  active_connections : Option Nat
  tables : Option (List (String × ℚ))
  error : Option String
deriving DecidableEq

/-- `fetch_database_metrics` (admin_app.py lines 334-353). -/
def fetch_database_metrics (query : Except String DbRawData) : DatabaseResult :=
  match query with
  | .error e =>
    { size_gb := 0, size_bytes := none, active_connections := none, tables := none,
      error := some e }
  | .ok d =>
    { size_gb := round2 ((d.db_bytes : ℚ) / (1024 ^ 3)),
      size_bytes := some d.db_bytes,
      active_connections := some d.active_connections,
      tables := some (d.tables.map (fun t => (t.fst, round2 ((t.snd : ℚ) / (1024 ^ 2))))),
      error := none }

structure SurveyRow where
  survey_day : Nat
  result_bucket : String
  count : Nat
deriving DecidableEq

structure DayBuckets where
  low : Nat
  medium : Nat
  high : Nat
  total : Nat
deriving DecidableEq

/-- `survey_by_day[day][bucket] = count`: a bucket outside Low/Medium/High is
stored in the Python dict under its own key but never read again, so it is
dropped here. -/
def setBucket (b : DayBuckets) (name : String) (c : Nat) : DayBuckets :=
  if name = "Low" then { b with low := c }
  else if name = "Medium" then { b with medium := c }
  else if name = "High" then { b with high := c }
  else b

/-- The per-day accumulation loop of `fetch_satisfaction_metrics`, keyed by
`survey_day` in insertion order. -/
def foldSurvey (rows : List SurveyRow) : List (Nat × DayBuckets) :=
  rows.foldl (fun acc row =>
    if acc.any (fun e => e.fst == row.survey_day) then
      acc.map (fun e =>
        if e.fst == row.survey_day then
          (e.fst, { setBucket e.snd row.result_bucket row.count with total := e.snd.total + row.count })
        else e)
    else
      acc ++ [(row.survey_day,
        { setBucket { low := 0, medium := 0, high := 0, total := 0 } row.result_bucket row.count
          with total := row.count })]) []

/-- The mapping returned by `fetch_satisfaction_metrics`; a score keyed by
the string `"Day {d}"` is kept keyed by `d`. -/
structure SatisfactionResult where
  by_day : List (Nat × DayBuckets)
  scores : List (Nat × ℚ)
  error : Option String
deriving DecidableEq

/-- `fetch_satisfaction_metrics` (admin_app.py lines 485-505). -/
def fetch_satisfaction_metrics (query : Except String (List SurveyRow)) : SatisfactionResult :=
  match query with
  | .error e => { by_day := [], scores := [], error := some e }
  | .ok rows =>
    let by_day := foldSurvey rows
    { by_day := by_day,
      scores := (by_day.filter (fun e => decide (0 < e.snd.total))).map
        (fun e => (e.fst, round1 ((e.snd.low : ℚ) / (e.snd.total : ℚ) * 100))),
      error := none }

structure DauRow where
  event_date : Nat
  count : Nat
deriving DecidableEq

structure DauResult where
  daily : List DauRow
  error : Option String
deriving DecidableEq

/-- `fetch_dau_metrics` (admin_app.py lines 508-517). -/
def fetch_dau_metrics (query : Except String (List DauRow)) : DauResult :=
  match query with
  | .error e => { daily := [], error := some e }
  | .ok rows => { daily := rows, error := none }

/-- The mapping returned by `fetch_manual_costs`. -/
structure ManualCostsResult where
  marketing : ℚ
  personnel : ℚ
  ads : ℚ
  legal : ℚ
  other : ℚ
  total : ℚ
  error : Option String
deriving DecidableEq

/-- `fetch_manual_costs` (admin_app.py lines 520-539); the query yields
`(cost_type, SUM(amount))` rows with distinct types, so the dict-values sum
is the row sum. -/
def fetch_manual_costs (query : Except String (List (String × ℚ))) : ManualCostsResult :=
  match query with
  | .error e =>
    { marketing := 0, personnel := 0, ads := 0, legal := 0, other := 0, total := 0,
      error := some e }
  | .ok costs =>
    { marketing := lookupCost costs "marketing",
      personnel := lookupCost costs "personnel",
      ads := lookupCost costs "ads",
      legal := lookupCost costs "legal",
      other := lookupCost costs "other",
      total := round2 ((costs.map Prod.snd).sum),
      error := none }

/-- The inputs of `fetch_health_status`: the database round trip and the
probe of the main app (`(status_code, response_ms)` or its own failure). -/
structure HealthData where
  db_ms : ℚ
  patients_count : Nat
  medications_count : Nat
  app_probe : Except String (Nat × ℚ)
deriving DecidableEq

structure HealthResult where
  database_status : Option (String × ℚ)
  patients_count : Option Nat
  medications_count : Option Nat
  main_app : Option (String × ℚ)
  overall : String
  error : Option String
deriving DecidableEq

/-- `fetch_health_status` (admin_app.py lines 542-571); on the success path
`checks['database']['status']` is always `'ok'`, so `overall` is
`'healthy'`. -/
def fetch_health_status (query : Except String HealthData) : HealthResult :=
  match query with
  | .error e =>
    { database_status := none, patients_count := none, medications_count := none,
      main_app := none, overall := "unhealthy", error := some e }
  | .ok d =>
    { database_status := some ("ok", round2 d.db_ms),
      patients_count := some d.patients_count,
      medications_count := some d.medications_count,
      main_app := some (match d.app_probe with
        | .ok probe => (if probe.fst = 200 then "ok" else "error", round2 probe.snd)
        | .error _ => ("unreachable", (0 : ℚ))),
      overall := "healthy",
      error := none }

/-- The aggregate inputs of `fetch_ai_compliance_metrics`. -/
structure AiAuditData where
  total_actions : Nat
  by_type : List (String × Nat)
  accepted : Nat
  rejected : Nat
  modified : Nat
  total_rated : Nat
deriving DecidableEq

structure AiComplianceResult where
  total_actions : Nat
  by_type : List (String × Nat)
  acceptance_rate : Option ℚ
  accepted : Option Nat
  rejected : Option Nat
  modified : Option Nat
  error : Option String
deriving DecidableEq

/-- `fetch_ai_compliance_metrics` (admin_app.py lines 422-482); the `recent`
rows are presentational and not modelled. -/
def fetch_ai_compliance_metrics (query : Except String AiAuditData) : AiComplianceResult :=
  match query with
  | .error e =>
    { total_actions := 0, by_type := [], acceptance_rate := none,
      accepted := none, rejected := none, modified := none, error := some e }
  | .ok d =>
    { total_actions := d.total_actions, by_type := d.by_type,
      acceptance_rate :=
        some (round1 (if 0 < d.total_rated then (d.accepted : ℚ) / d.total_rated * 100 else 0)),
      accepted := some d.accepted, rejected := some d.rejected, modified := some d.modified,
      error := none }

/-! ## Deletion requests (admin_app.py lines 108-128 and 1162-1192) -/

structure DeletionRequestRow where
  patient_code : String
  code_hash : String
  status : String
  requested_at : Nat
  processed_at : Option Nat
deriving DecidableEq

/-- A row of the listing returned by `fetch_deletion_requests` (the
`days_pending` extract is presentational and not modelled). -/
structure PendingRequestView where
  patient_code : String
  requested_at : Nat
deriving DecidableEq

/-- `fetch_deletion_requests` (admin_app.py lines 108-128): pending rows
only; any failure yields the empty list (and no error key at all). -/
def fetch_deletion_requests (query : Except String (List DeletionRequestRow)) :
    List PendingRequestView :=
  match query with
  | .error _ => []
  | .ok rows =>
    (rows.filter (fun r => r.status == "pending")).map
      (fun r => { patient_code := r.patient_code, requested_at := r.requested_at })

/-- The tables touched by the deletion processor; `medications`, `reminders`
and `patients` rows are represented by their `code_hash` column, the only
one the statements consult. -/
structure CareDb where
  medications : List String
  reminders : List String
  patients : List String
  deletion_requests : List DeletionRequestRow
deriving DecidableEq

/-- The `SELECT code_hash FROM deletion_requests WHERE patient_code = %s AND
status = 'pending'` of `process_deletion`, with `fetchone()`. -/
def select_pending_hash (db : CareDb) (patient_code : String) : Option String :=
  ((db.deletion_requests.filter
      (fun r => decide (r.patient_code = patient_code ∧ r.status = "pending"))).head?).map
    DeletionRequestRow.code_hash

/-- `DELETE FROM medications WHERE code_hash = %s`. -/
def delete_medications (db : CareDb) (code_hash : String) : CareDb :=
  { db with medications := db.medications.filter (fun h => decide (¬ h = code_hash)) }

/-- `DELETE FROM reminders WHERE code_hash = %s`. -/
def delete_reminders (db : CareDb) (code_hash : String) : CareDb :=
  { db with reminders := db.reminders.filter (fun h => decide (¬ h = code_hash)) }

/-- `DELETE FROM patients WHERE code_hash = %s`. -/
def delete_patients (db : CareDb) (code_hash : String) : CareDb :=
  { db with patients := db.patients.filter (fun h => decide (¬ h = code_hash)) }

/-- `UPDATE deletion_requests SET status = 'completed', processed_at =
CURRENT_TIMESTAMP WHERE patient_code = %s` — note: no filter on the current
status. -/
def complete_requests (db : CareDb) (patient_code : String) (now : Nat) : CareDb :=
  { db with deletion_requests := db.deletion_requests.map (fun r =>
      if r.patient_code = patient_code then
        { r with status := "completed", processed_at := some now }
      else r) }

/-- psycopg2 transaction semantics: the statements run in order against an
uncommitted working state; if statement number `failAt` (0-based) raises
before the end, nothing was committed and the connection's transaction is
discarded, so the visible state is unchanged (`none`). -/
def runStmts (db : CareDb) (stmts : List (CareDb → CareDb)) (failAt : Option Nat) :
    Option CareDb :=
  match failAt with
  | none => some (stmts.foldl (fun d f => f d) db)
  | some i =>
    if i < stmts.length then none
    else some (stmts.foldl (fun d f => f d) db)

inductive DeletionResp where
  | unauthorized
  | notFound (msg : String)
  | serverError (msg : String)
  | ok
deriving DecidableEq

structure DeletionOutcome where
  db : CareDb
  resp : DeletionResp
  conn : ConnTrace
deriving DecidableEq

/-- `process_deletion` (admin_app.py lines 1162-1192).  `failAt` is the
index of the statement that raises, counting the initial `SELECT` as 0 and
the four mutating statements as 1..4; `none`, or an index past the last
statement, means nothing raises.  On an exception the handler returns a 500
without committing — the transaction is rolled back whole — and without ever
reaching `conn.close()`.  The not-found path closes the connection
explicitly before returning 404. -/
def process_deletion (authed : Bool) (db : CareDb) (patient_code : String) (now : Nat)
    (failAt : Option Nat) : DeletionOutcome :=
  if ¬ authed then { db := db, resp := .unauthorized, conn := { opened := false, closed := false } }
  else if failAt = some 0 then
    { db := db, resp := .serverError "query failed", conn := { opened := true, closed := false } }
  else
    match select_pending_hash db patient_code with
    | none =>
      { db := db, resp := .notFound "Request not found", conn := { opened := true, closed := true } }
    | some code_hash =>
      let mutFail : Option Nat := match failAt with | some (i + 1) => some i | _ => none
      match runStmts db
        [fun d => delete_medications d code_hash,
         fun d => delete_reminders d code_hash,
         fun d => delete_patients d code_hash,
         fun d => complete_requests d patient_code now] mutFail with
      | none =>
        { db := db, resp := .serverError "statement failed",
          conn := { opened := true, closed := false } }
      | some db2 =>
        { db := db2, resp := .ok, conn := { opened := true, closed := true } }

/-! ## The aggregation endpoint (admin_app.py lines 1065-1129) -/

/-- Everything the aggregation endpoint reads from outside. -/
structure ExternalWorld where
  gcpCfg : GcpConfig
  gcpQuery : Except String (List (String × ℚ))
  dbQuery : Except String DbRawData
  twilioSid : String
  twilioAuthTok : String
  twilioCalls : Except String (List TwilioCall)
  twilioBalance : Except String ℚ
  geminiUsage : Except String (List GeminiUsageRow)
  userQuery : Except String UserDbData
  surveyQuery : Except String (List SurveyRow)
  dauQuery : Except String (List DauRow)
  manualQuery : Except String (List (String × ℚ))
  logQuery : Except String (List LogEntry)
  healthQuery : Except String HealthData
  aiQuery : Except String AiAuditData
  deletionsQuery : Except String (List DeletionRequestRow)
deriving DecidableEq

/-- `automated_costs` (line 1083): every branch of the three collectors
carries the keys `total` and `cost`, so the `.get(.., 0)` defaults never
fire. -/
def automated_costs (gcp : GcpBillingResult) (twilio : TwilioResult)
    (gemini : GeminiResult) : ℚ :=
  gcp.total + twilio.cost + gemini.cost

/-- `total_costs` (line 1084). -/
def total_costs (gcp : GcpBillingResult) (twilio : TwilioResult) (gemini : GeminiResult)
    (manual : ManualCostsResult) : ℚ :=
  automated_costs gcp twilio gemini + manual.total

/-- `per_user_cost` (line 1086). -/
def per_user_cost (tc : ℚ) (total_users : Nat) : ℚ :=
  if 0 < total_users then tc / (total_users : ℚ) else 0

/-- `breakeven_users` (line 1090): `int(total_costs / revenue_per_user)`. -/
def breakeven_users (tc revenue_per_user : ℚ) : ℤ :=
  if 0 < revenue_per_user then pyInt (tc / revenue_per_user) else 0

/-- The JSON document of `/api/metrics`, flattened. -/
structure MetricsBody where
  users : UserMetricsResult
  costs_automated_cloud_run : ℚ
  costs_automated_cloud_sql : ℚ
  costs_automated_networking : Option ℚ
  costs_automated_twilio : ℚ
  costs_automated_gemini : ℚ
  costs_automated_total : ℚ
  costs_manual : ManualCostsResult
  costs_total : ℚ
  costs_per_user : ℚ
  financial_total_costs : ℚ
  financial_monthly_revenue : ℚ
  financial_profit_loss : ℚ
  financial_breakeven_users : ℤ
  financial_current_users : Nat
  details_gcp : GcpBillingResult
  details_database : DatabaseResult
  details_twilio : TwilioResult
  details_gemini : GeminiResult
  satisfaction : SatisfactionResult
  dau : DauResult
  errors : ErrorLogResult
  health : HealthResult
  ai_compliance : AiComplianceResult
  deletions : List PendingRequestView
deriving DecidableEq

inductive MetricsResp where
  | unauthorized
  | ok (body : MetricsBody)
deriving DecidableEq

/-- `get_all_metrics` (admin_app.py lines 1065-1129).  The collectors never
raise, and the arithmetic after them cannot raise (the only division is
guarded), so the handler's own `except`-500 branch is unreachable and the
model has no server-error case. -/
def get_all_metrics (authed : Bool) (w : ExternalWorld) : MetricsResp :=
  if ¬ authed then .unauthorized
  else
    let gcp_costs := fetch_gcp_billing w.gcpCfg w.gcpQuery
    let db_metrics := fetch_database_metrics w.dbQuery
    let twilio_metrics := fetch_twilio_metrics w.twilioSid w.twilioAuthTok w.twilioCalls w.twilioBalance
    let gemini_metrics := fetch_gemini_metrics w.geminiUsage
    let user_metrics := (fetch_user_metrics w.userQuery).fst
    let satisfaction_metrics := fetch_satisfaction_metrics w.surveyQuery
    let dau_metrics := fetch_dau_metrics w.dauQuery
    let manual_costs := fetch_manual_costs w.manualQuery
    let error_metrics := fetch_cloud_run_errors w.logQuery
    let health_status := fetch_health_status w.healthQuery
    let ai_compliance := fetch_ai_compliance_metrics w.aiQuery
    let deletionList := fetch_deletion_requests w.deletionsQuery
    let auto := automated_costs gcp_costs twilio_metrics gemini_metrics
    let tc := total_costs gcp_costs twilio_metrics gemini_metrics manual_costs
    let total_users := user_metrics.total_users
    let revenue_per_user : ℚ := 5
    let monthly_revenue := (total_users : ℚ) * revenue_per_user
    .ok {
      users := user_metrics,
      costs_automated_cloud_run := gcp_costs.cloud_run,
      costs_automated_cloud_sql := gcp_costs.cloud_sql,
      costs_automated_networking := gcp_costs.networking,
      costs_automated_twilio := twilio_metrics.cost,
      costs_automated_gemini := gemini_metrics.cost,
      costs_automated_total := round2 auto,
      costs_manual := manual_costs,
      costs_total := round2 tc,
      costs_per_user := round2 (per_user_cost tc total_users),
      financial_total_costs := round2 tc,
      financial_monthly_revenue := round2 monthly_revenue,
      financial_profit_loss := round2 (monthly_revenue - tc),
      financial_breakeven_users := breakeven_users tc revenue_per_user,
      financial_current_users := total_users,
      details_gcp := gcp_costs,
      details_database := db_metrics,
      details_twilio := twilio_metrics,
      details_gemini := gemini_metrics,
      satisfaction := satisfaction_metrics,
      dau := dau_metrics,
      errors := error_metrics,
      health := health_status,
      ai_compliance := ai_compliance,
      deletions := deletionList }

/-! ## Decidability of the signup-list well-formedness predicate -/

instance instDecValidSignups (ds : List SignupRow) : Decidable (ValidSignups ds) := by
  unfold ValidSignups
  infer_instance

/-! ## Projections of the aggregation response -/

/-- The `financial.breakeven_users` field of a `/api/metrics` response. -/
def responseBreakeven (r : MetricsResp) : Option ℤ :=
  match r with
  | .unauthorized => none
  | .ok body => some body.financial_breakeven_users

/-- The `costs.per_user` field of a `/api/metrics` response. -/
def responsePerUserCost (r : MetricsResp) : Option ℚ :=
  match r with
  | .unauthorized => none
  | .ok body => some body.costs_per_user

/-! ## Concrete fixtures used to instantiate the theorems -/

def samplePost : BlogPost :=
  { id := 1, title := "Hello, World! 2024".data, slug := "hello-world-2024".data,
    content := "First take.".data, excerpt := [], meta_description := [], keywords := [],
    author := "Kanchan Ghosh".data, featured_image := [], status := "published",
    published_at := some 100, created_at := 100, updated_at := 100 }

def draftPost : BlogPost :=
  { id := 2, title := "Care notes".data, slug := "care-notes".data,
    content := "Draft body.".data, excerpt := [], meta_description := [], keywords := [],
    author := "Kanchan Ghosh".data, featured_image := [], status := "draft",
    published_at := none, created_at := 120, updated_at := 120 }

def sampleStore : List BlogPost := [samplePost, draftPost]

def sampleCreate : CreateData :=
  { title := "Hello, World! 2024".data, content := "Second take on the subject.".data,
    excerpt := none, meta_description := none, keywords := none, author := none,
    featured_image := none, status := some "draft" }

def samplePublish : UpdateData :=
  { title := none, content := none, excerpt := none, meta_description := none,
    keywords := none, featured_image := none, status := some "published" }

/-- Ten consecutive signup days (today .. 9 days ago), one signup each. -/
def sampleSignups : List SignupRow :=
  (List.range 10).map (fun i => { daysAgo := i, count := 1 })

/-- Fourteen consecutive signup days, one signup each. -/
def sampleSignups14 : List SignupRow :=
  (List.range 14).map (fun i => { daysAgo := i, count := 1 })

/-- A care database with a pending request for `P1` next to an already
completed one for the same code, plus a pending request for `P2`. -/
def sampleCareDb : CareDb :=
  { medications := ["H1", "H1", "H2"],
    reminders := ["H1"],
    patients := ["H1", "H2"],
    deletion_requests :=
      [{ patient_code := "P1", code_hash := "H1", status := "completed", requested_at := 5,
         processed_at := some 50 },
       { patient_code := "P1", code_hash := "H1", status := "pending", requested_at := 10,
         processed_at := none },
       { patient_code := "P2", code_hash := "H2", status := "pending", requested_at := 11,
         processed_at := none }] }

def sampleCompletedRow : DeletionRequestRow :=
  { patient_code := "P1", code_hash := "H1", status := "completed", requested_at := 5,
    processed_at := some 50 }

def sampleGcpConfig : GcpConfig :=
  { project_id := "proj", billing_account := "acct", dataset := "billing" }

/-- A world in which every external fetch raises. -/
def sampleWorld : ExternalWorld :=
  { gcpCfg := sampleGcpConfig, gcpQuery := Except.error "x", dbQuery := Except.error "x",
    twilioSid := "sid", twilioAuthTok := "tok", twilioCalls := Except.error "x",
    twilioBalance := Except.error "x", geminiUsage := Except.error "x",
    userQuery := Except.error "x", surveyQuery := Except.error "x",
    dauQuery := Except.error "x", manualQuery := Except.error "x",
    logQuery := Except.error "x", healthQuery := Except.error "x",
    aiQuery := Except.error "x", deletionsQuery := Except.error "x" }

def sampleUserData : UserDbData :=
  { total_users := 4, active_once_7d := 2, active_thrice_7d := 1,
    daily_signups := sampleSignups, retained := 1 }

/-- Like `sampleWorld` but the user queries succeed with four patients. -/
def sampleWorldUsers : ExternalWorld :=
  { sampleWorld with userQuery := Except.ok sampleUserData }

/-! ## Slug lemmas -/

theorem isSlugChar_ne_hyphen {c : Char} (h : isSlugChar c = true) : (c == '-') = false := by
  by_cases hc : c = '-'
  · subst hc; exact absurd h (by decide)
  · exact beq_eq_false_iff_ne.mpr hc

theorem collapseAux_true (cs : List Char) :
    collapseAux true cs = collapseRuns (cs.dropWhile (fun d => !isSlugChar d)) := by
  induction cs with
  | nil => rfl
  | cons c cs ih =>
    by_cases hc : isSlugChar c = true
    · simp [collapseAux, collapseRuns, hc]
    · have hc2 : isSlugChar c = false := by simpa using hc
      simp [collapseAux, hc2, ih]

theorem collapseRuns_cons_pos {c : Char} {cs : List Char} (h : isSlugChar c = true) :
    collapseRuns (c :: cs) = c :: collapseRuns cs := by
  simp [collapseRuns, collapseAux, h]

theorem collapseRuns_cons_neg {c : Char} {cs : List Char} (h : isSlugChar c = false) :
    collapseRuns (c :: cs) = '-' :: collapseRuns (cs.dropWhile (fun d => !isSlugChar d)) := by
  rw [← collapseAux_true]
  simp [collapseRuns, collapseAux, h]

theorem slugGroups_cons_pos {c : Char} {cs : List Char} (h : isSlugChar c = true) :
    slugGroups (c :: cs) =
      (c :: cs.takeWhile isSlugChar) :: slugGroups (cs.dropWhile isSlugChar) := by
  rw [slugGroups]; simp [h]

theorem slugGroups_cons_neg {c : Char} {cs : List Char} (h : isSlugChar c = false) :
    slugGroups (c :: cs) = slugGroups (cs.dropWhile (fun d => !isSlugChar d)) := by
  rw [slugGroups]; simp [h]

theorem collapseRuns_append_slug (g t : List Char) (hg : ∀ c ∈ g, isSlugChar c = true) :
    collapseRuns (g ++ t) = g ++ collapseRuns t := by
  induction g with
  | nil => simp
  | cons c cs ih =>
    have hc := hg c (by simp)
    simp only [List.cons_append]
    rw [collapseRuns_cons_pos hc, ih (fun d hd => hg d (by simp [hd]))]

theorem dropWhile_head_false {α : Type} {p : α → Bool} {l : List α} {d : α} {ds : List α}
    (h : l.dropWhile p = d :: ds) : p d = false := by
  induction l with
  | nil => simp at h
  | cons a t ih =>
    rw [List.dropWhile_cons] at h
    split at h
    · exact ih h
    · rename_i hp
      cases h
      simpa using hp

theorem dropWhile_of_forall_false (p : Char → Bool) (l : List Char)
    (h : ∀ c ∈ l, p c = false) : l.dropWhile p = l := by
  cases l with
  | nil => rfl
  | cons x xs => rw [List.dropWhile_cons_of_neg (by simp [h x (by simp)])]

theorem rdropWhile_of_forall (p : Char → Bool) (l : List Char)
    (h : ∀ c ∈ l, p c = false) : List.rdropWhile p l = l := by
  rw [List.rdropWhile,
    dropWhile_of_forall_false p l.reverse (fun c hcm => h c (List.mem_reverse.mp hcm)),
    List.reverse_reverse]

theorem rdropWhile_ne_nil_of_mem (p : Char → Bool) {l : List Char} {c : Char}
    (hc : c ∈ l) (hpc : p c = false) : List.rdropWhile p l ≠ [] := by
  intro hnil
  have := List.rdropWhile_eq_nil_iff.mp hnil c hc
  simp [hpc] at this

theorem rdropWhile_append (p : Char → Bool) (u v : List Char)
    (hv : List.rdropWhile p v ≠ []) :
    List.rdropWhile p (u ++ v) = u ++ List.rdropWhile p v := by
  have hne : (v.reverse.dropWhile p).isEmpty = false := by
    rcases hl : v.reverse.dropWhile p with _ | ⟨a, t⟩
    · exact absurd (by simp [List.rdropWhile, hl]) hv
    · rfl
  simp only [List.rdropWhile, List.reverse_append, List.dropWhile_append, hne,
    Bool.false_eq_true, if_false, List.reverse_append, List.reverse_reverse]

theorem pyStrip_cons_neg (p : Char → Bool) (c : Char) (l : List Char) (h : p c = false) :
    pyStrip p (c :: l) = List.rdropWhile p (c :: l) := by
  rw [pyStrip, List.dropWhile_cons_of_neg (by simp [h])]

theorem pyStrip_cons_pos (p : Char → Bool) (c : Char) (l : List Char) (h : p c = true) :
    pyStrip p (c :: l) = pyStrip p l := by
  rw [pyStrip, List.dropWhile_cons_of_pos (by simp [h]), pyStrip]

theorem intercalate_hyphen_singleton (g : List Char) : List.intercalate ['-'] [g] = g := by
  simp [List.intercalate]

theorem intercalate_hyphen_cons (g : List Char) (G : List (List Char)) (h : G ≠ []) :
    List.intercalate ['-'] (g :: G) = g ++ '-' :: List.intercalate ['-'] G := by
  rcases G with _ | ⟨x, xs⟩
  · exact absurd rfl h
  · simp [List.intercalate]

/-- The regex-substitution form of the slug agrees with the declarative
runs-joined-by-hyphens form, for every input string. -/
theorem stripHyphen_collapseRuns (s : List Char) :
    stripHyphen (collapseRuns s) = List.intercalate ['-'] (slugGroups s) := by
  have key : ∀ n, ∀ s : List Char, s.length ≤ n →
      stripHyphen (collapseRuns s) = List.intercalate ['-'] (slugGroups s) := by
    intro n
    induction n with
    | zero =>
      intro s hs
      have hnil : s = [] := List.length_eq_zero.mp (Nat.le_zero.mp hs)
      subst hnil
      simp [collapseRuns, collapseAux, slugGroups, stripHyphen, pyStrip, List.intercalate]
    | succ n ih =>
      intro s hs
      rcases s with _ | ⟨c, cs⟩
      · simp [collapseRuns, collapseAux, slugGroups, stripHyphen, pyStrip, List.intercalate]
      · simp only [List.length_cons] at hs
        by_cases hc : isSlugChar c = true
        · -- the head starts an alphanumeric run
          have ha : ∀ x ∈ c :: cs.takeWhile isSlugChar, isSlugChar x = true := by
            intro x hx
            rcases List.mem_cons.mp hx with hx | hx
            · subst hx; exact hc
            · exact List.mem_takeWhile_imp hx
          have hsplit : c :: cs = (c :: cs.takeWhile isSlugChar) ++ cs.dropWhile isSlugChar := by
            simp [List.takeWhile_append_dropWhile]
          have hcoll : collapseRuns (c :: cs) =
              (c :: cs.takeWhile isSlugChar) ++ collapseRuns (cs.dropWhile isSlugChar) := by
            rw [hsplit, collapseRuns_append_slug _ _ ha]
          have hgr : slugGroups (c :: cs) =
              (c :: cs.takeWhile isSlugChar) :: slugGroups (cs.dropWhile isSlugChar) :=
            slugGroups_cons_pos hc
          have hlenr : (cs.dropWhile isSlugChar).length ≤ cs.length :=
            (List.dropWhile_suffix _).sublist.length_le
          have hnilc : collapseRuns [] = [] := rfl
          have hnilg : slugGroups [] = [] := by rw [slugGroups]
          rcases hr : cs.dropWhile isSlugChar with _ | ⟨d, ds⟩
          · -- the whole string is one run
            rw [hgr, hr, hnilg, intercalate_hyphen_singleton, hcoll, hr, hnilc,
              List.append_nil, stripHyphen,
              pyStrip_cons_neg (fun x => x == '-') _ _ (isSlugChar_ne_hyphen hc)]
            exact rdropWhile_of_forall (fun x => x == '-') _ (fun x hx => isSlugChar_ne_hyphen (ha x hx))
          · -- a separator run follows
            have hd : isSlugChar d = false := dropWhile_head_false hr
            have hcoll2 : collapseRuns (d :: ds) =
                '-' :: collapseRuns (ds.dropWhile (fun e => !isSlugChar e)) :=
              collapseRuns_cons_neg hd
            have hgr2 : slugGroups (d :: ds) =
                slugGroups (ds.dropWhile (fun e => !isSlugChar e)) := slugGroups_cons_neg hd
            have hlen2 : (ds.dropWhile (fun e => !isSlugChar e)).length ≤ ds.length :=
              (List.dropWhile_suffix _).sublist.length_le
            rcases hr2 : ds.dropWhile (fun e => !isSlugChar e) with _ | ⟨e, es⟩
            · -- trailing separator run: the hyphen is stripped again
              rw [hgr, hr, hgr2, hr2, hnilg, intercalate_hyphen_singleton, hcoll, hr, hcoll2,
                hr2, hnilc]
              have hform : (c :: cs.takeWhile isSlugChar) ++ '-' :: ([] : List Char) =
                  c :: (cs.takeWhile isSlugChar ++ ['-']) := by simp
              rw [hform, stripHyphen, pyStrip_cons_neg (fun x => x == '-') _ _ (isSlugChar_ne_hyphen hc)]
              have hback : c :: (cs.takeWhile isSlugChar ++ ['-']) =
                  (c :: cs.takeWhile isSlugChar) ++ ['-'] := by simp
              rw [hback, List.rdropWhile_concat_pos _ _ '-' (by decide)]
              exact rdropWhile_of_forall (fun x => x == '-') _ (fun x hx => isSlugChar_ne_hyphen (ha x hx))
            · -- another run follows: keep one separating hyphen and recurse
              have he : isSlugChar e = true := by
                have hne := dropWhile_head_false hr2
                simpa using hne
              have hX : collapseRuns (e :: es) = e :: collapseRuns es :=
                collapseRuns_cons_pos he
              have hmemX : e ∈ collapseRuns (e :: es) := by rw [hX]; simp
              have hrne : List.rdropWhile (fun x => x == '-') (collapseRuns (e :: es)) ≠ [] :=
                rdropWhile_ne_nil_of_mem (fun x => x == '-') hmemX (isSlugChar_ne_hyphen he)
              have hstep : stripHyphen (collapseRuns (c :: cs)) =
                  (c :: cs.takeWhile isSlugChar) ++
                    '-' :: List.rdropWhile (fun x => x == '-') (collapseRuns (e :: es)) := by
                rw [hcoll, hr, hcoll2, hr2]
                have hform : (c :: cs.takeWhile isSlugChar) ++ '-' :: collapseRuns (e :: es) =
                    c :: (cs.takeWhile isSlugChar ++ '-' :: collapseRuns (e :: es)) := by simp
                rw [hform, stripHyphen, pyStrip_cons_neg (fun x => x == '-') _ _ (isSlugChar_ne_hyphen hc),
                  ← hform]
                have hform2 : (c :: cs.takeWhile isSlugChar) ++ '-' :: collapseRuns (e :: es) =
                    ((c :: cs.takeWhile isSlugChar) ++ ['-']) ++ collapseRuns (e :: es) := by
                  simp
                rw [hform2, rdropWhile_append (fun x => x == '-') _ _ hrne]
                simp
              have hstrip : stripHyphen (collapseRuns (e :: es)) =
                  List.rdropWhile (fun x => x == '-') (collapseRuns (e :: es)) := by
                rw [stripHyphen, hX, pyStrip_cons_neg (fun x => x == '-') _ _ (isSlugChar_ne_hyphen he), ← hX]
              have hlen3 : (e :: es).length ≤ n := by
                have h4 : (e :: es).length ≤ ds.length := by rw [← hr2]; exact hlen2
                have h5 : (d :: ds).length ≤ cs.length := by rw [← hr]; exact hlenr
                simp only [List.length_cons] at h4 h5 ⊢
                omega
              have hih := ih (e :: es) hlen3
              have hGne : slugGroups (e :: es) ≠ [] := by
                rw [slugGroups_cons_pos he]; simp
              rw [hstep, hgr, hr, hgr2, hr2, intercalate_hyphen_cons _ _ hGne, ← hih, hstrip]
        · -- the head belongs to a separator run
          have hc2 : isSlugChar c = false := by simpa using hc
          have hg : slugGroups (c :: cs) =
              slugGroups (cs.dropWhile (fun d => !isSlugChar d)) := slugGroups_cons_neg hc2
          have hcl : collapseRuns (c :: cs) =
              '-' :: collapseRuns (cs.dropWhile (fun d => !isSlugChar d)) :=
            collapseRuns_cons_neg hc2
          have hlen4 : (cs.dropWhile (fun d => !isSlugChar d)).length ≤ cs.length :=
            (List.dropWhile_suffix _).sublist.length_le
          rw [hcl, hg, stripHyphen, pyStrip_cons_pos (fun x => x == '-') _ _ (by rfl), ← stripHyphen]
          exact ih (cs.dropWhile (fun d => !isSlugChar d)) (by omega)
  exact key s.length s le_rfl


/-! ## Claim C5 — slug derivation and collision handling -/

theorem slug_any_eq_false {store : List BlogPost} {s : List Char}
    (h : slugExists store s = false) : ∀ p ∈ store, p.slug ≠ s := by
  intro p hp
  have hb := List.any_eq_false.mp h p hp
  simpa using hb

/-- C5: for every title the derived slug equals the declarative reading of
the spec — the lower-cased title's maximal `[a-z0-9]` runs joined by single
hyphens, which is the same as replacing every run of other characters by one
hyphen and trimming the ends; the title "Hello, World! 2024" yields
"hello-world-2024"; and when the derived slug already exists in the store at
creation time, the current Unix timestamp is appended, the new slug differs
from the colliding one, and the store's slugs stay duplicate-free. -/
theorem C5_slug_generation :
    (∀ t : List Char, generate_slug t = slugSpec t) ∧
    generate_slug ("Hello, World! 2024".data) = "hello-world-2024".data ∧
    (∀ (store : List BlogPost) (d : CreateData) (now ts newId : Nat),
      stripWhitespace d.title ≠ [] →
      stripWhitespace d.content ≠ [] →
      slugExists store (generate_slug (stripWhitespace d.title)) = true →
      slugExists store (generate_slug (stripWhitespace d.title) ++ '-' :: natDigits ts) = false →
      (create_blog_post true store d now ts newId).fst =
        CreateResult.created newId
          (generate_slug (stripWhitespace d.title) ++ '-' :: natDigits ts) ∧
      generate_slug (stripWhitespace d.title) ++ '-' :: natDigits ts ≠
        generate_slug (stripWhitespace d.title) ∧
      ((store.map BlogPost.slug).Nodup →
        ((create_blog_post true store d now ts newId).snd.map BlogPost.slug).Nodup)) := by
  refine ⟨fun t => stripHyphen_collapseRuns (t.map Char.toLower), by decide, ?_⟩
  intro store d now ts newId htitle hcontent hcol hfresh
  have hval : ¬(stripWhitespace d.title = [] ∨ stripWhitespace d.content = []) := by
    rintro (h | h)
    · exact htitle h
    · exact hcontent h
  refine ⟨?_, ?_, ?_⟩
  · simp [create_blog_post, hval, hcol, hfresh]
  · intro heq
    have hlen := congrArg List.length heq
    simp at hlen
  · intro hnd
    simp only [create_blog_post, hval, hcol, hfresh]
    simp [hval, hcol, hfresh, List.nodup_append]
    exact ⟨hnd, fun p hp hps => slug_any_eq_false hfresh p hp hps⟩

/-- Witness for C5 at the sample store, whose post already owns the slug
"hello-world-2024". -/
theorem C5_slug_generation_witness :
    stripWhitespace sampleCreate.title ≠ [] ∧
    stripWhitespace sampleCreate.content ≠ [] ∧
    slugExists sampleStore (generate_slug (stripWhitespace sampleCreate.title)) = true ∧
    slugExists sampleStore
      (generate_slug (stripWhitespace sampleCreate.title) ++ '-' :: natDigits 1700000000) =
      false ∧
    (create_blog_post true sampleStore sampleCreate 200 1700000000 3).fst =
      CreateResult.created 3
        (generate_slug (stripWhitespace sampleCreate.title) ++ '-' :: natDigits 1700000000) ∧
    generate_slug (stripWhitespace sampleCreate.title) ++ '-' :: natDigits 1700000000 ≠
      generate_slug (stripWhitespace sampleCreate.title) ∧
    ((create_blog_post true sampleStore sampleCreate 200 1700000000 3).snd.map
      BlogPost.slug).Nodup := by
  have h := C5_slug_generation.2.2 sampleStore sampleCreate 200 1700000000 3
    (by decide) (by decide) (by decide) (by decide)
  exact ⟨by decide, by decide, by decide, by decide, h.1, h.2.1, h.2.2 (by decide)⟩

/-! ## Claim C4 — published_at is stamped at most once -/

theorem find_unique_post {store : List BlogPost} {pid : Nat} {p : BlogPost}
    (hp : p ∈ store) (hid : p.id = pid) (hu : ∀ q ∈ store, q.id = pid → q = p) :
    store.find? (fun q => q.id == pid) = some p := by
  induction store with
  | nil => simp at hp
  | cons a l ih =>
    by_cases ha : a.id = pid
    · have hap : a = p := hu a (by simp) ha
      subst hap
      exact List.find?_cons_of_pos _ (by simp [ha])
    · rw [List.find?_cons_of_neg _ (by simp [ha])]
      rcases List.mem_cons.mp hp with h | h
      · subst h; exact absurd hid ha
      · exact ih h (fun q hq hqid => hu q (by simp [hq]) hqid)

theorem update_map_published {store : List BlogPost} {pid : Nat} {d : UpdateData}
    {stamp : Bool} {now : Nat} {p : BlogPost}
    (hu : ∀ q ∈ store, q.id = pid → q = p) :
    ∀ q ∈ store.map (fun r => if r.id = pid then applyUpdates d stamp now r else r),
      q.id = pid → q.published_at = if stamp then some now else p.published_at := by
  intro q hq hqid
  rcases List.mem_map.mp hq with ⟨r, hr, hqr⟩
  by_cases hrid : r.id = pid
  · have hrp : r = p := hu r hr hrid
    subst hrp
    rw [← hqr]
    simp [applyUpdates, hrid]
  · rw [← hqr] at hqid
    simp [hrid] at hqid

/-- C4: `published_at` is set at most once per post.  Creating with
`status = published` stamps it at creation time and any other status leaves
it null; updating a post whose `published_at` is already non-null leaves the
original value unchanged whatever the update carries (including
re-publishing); and updating a post whose `published_at` is null to
`status = published` stamps it now. -/
theorem C4_published_at_once :
    (∀ (store : List BlogPost) (d : CreateData) (now ts newId : Nat) (p : BlogPost),
      p ∈ (create_blog_post true store d now ts newId).snd → p ∉ store →
      p.published_at = (if d.status.getD "draft" = "published" then some now else none)) ∧
    (∀ (store : List BlogPost) (post_id : Nat) (d : UpdateData) (now : Nat)
      (p : BlogPost) (t : Nat),
      p ∈ store → p.id = post_id → p.published_at = some t →
      (∀ q ∈ store, q.id = post_id → q = p) →
      ∀ q ∈ (update_blog_post true store post_id d now).snd, q.id = post_id →
        q.published_at = some t) ∧
    (∀ (store : List BlogPost) (post_id : Nat) (d : UpdateData) (now : Nat) (p : BlogPost),
      p ∈ store → p.id = post_id → p.published_at = none → d.status = some "published" →
      (∀ q ∈ store, q.id = post_id → q = p) →
      ∀ q ∈ (update_blog_post true store post_id d now).snd, q.id = post_id →
        q.published_at = some now) := by
  refine ⟨?_, ?_, ?_⟩
  · -- creation stamps iff the requested status is published
    intro store d now ts newId p hmem hnot
    simp only [create_blog_post, not_true_eq_false, Bool.false_eq_true, if_false] at hmem
    split at hmem
    · exact absurd (by simpa using hmem) hnot
    · split at hmem <;> split at hmem
      all_goals simp at hmem
      all_goals
        first
          | exact absurd hmem hnot
          | (rcases hmem with h | h
             · exact absurd h hnot
             · subst h
               simp [*])
  · -- updating an already-published post never changes published_at
    intro store pid d now p t hp hid hpt hu q hq hqid
    rcases hds : d.status with _ | s
    · simp only [update_blog_post, hds, not_true_eq_false, Bool.false_eq_true, if_false] at hq
      have hpub := update_map_published hu q hq hqid
      simpa [hpt] using hpub
    · by_cases hs : s = "published"
      · subst hs
        simp only [update_blog_post, hds, not_true_eq_false, Bool.false_eq_true, if_false,
          if_true, find_unique_post hp hid hu, hpt, Option.isNone_some] at hq
        have hpub := update_map_published hu q hq hqid
        simpa [hpt] using hpub
      · simp only [update_blog_post, hds, not_true_eq_false, Bool.false_eq_true, if_false,
          if_neg hs] at hq
        have hpub := update_map_published hu q hq hqid
        simpa [hpt] using hpub
  · -- publishing a post whose published_at is null stamps it now
    intro store pid d now p hp hid hpt hds hu q hq hqid
    simp only [update_blog_post, hds, not_true_eq_false, Bool.false_eq_true, if_false,
      if_true, find_unique_post hp hid hu, hpt, Option.isNone_none] at hq
    have hpub := update_map_published hu q hq hqid
    simpa using hpub

/-- Witness for C4: re-publishing the already-published sample post keeps
its original timestamp, publishing the draft stamps the new time. -/
theorem C4_published_at_once_witness :
    samplePost ∈ sampleStore ∧ samplePost.published_at = some 100 ∧
    draftPost ∈ sampleStore ∧ draftPost.published_at = none ∧
    (applyUpdates samplePublish false 200 samplePost).published_at = some 100 ∧
    (applyUpdates samplePublish true 200 draftPost).published_at = some 200 := by
  have h2 := C4_published_at_once.2.1 sampleStore 1 samplePublish 200 samplePost 100
    (by decide) (by decide) (by decide) (by decide)
    (applyUpdates samplePublish false 200 samplePost) (by decide) (by decide)
  have h3 := C4_published_at_once.2.2 sampleStore 2 samplePublish 200 draftPost
    (by decide) (by decide) (by decide) (by decide) (by decide)
    (applyUpdates samplePublish true 200 draftPost) (by decide) (by decide)
  exact ⟨by decide, by decide, by decide, by decide, h2, h3⟩

/-! ## Claim C3 — the previous_7d default -/

/-- C3 (counterexample): with ten consecutive one-signup days the true
prior-week count is 3 — positive and fully derivable from the fetched
window — yet the code uses the default 1, because its condition is the row
count of the list, not the prior-week count. -/
theorem C3_growth_counterexample :
    ValidSignups sampleSignups ∧ truePriorWeekCount sampleSignups = 3 ∧
    0 < truePriorWeekCount sampleSignups ∧ previous_7d sampleSignups = 1 ∧
    previous_7d sampleSignups ≠ truePriorWeekCount sampleSignups := by decide

/-- C3 (amended): `previous_7d` defaults to 1 exactly when fewer than 14
signup-day rows were fetched; with at least 14 rows it is the positional sum
of rows 8..14; in particular, when the 14 most recent calendar days each had
a signup, the positional window is the prior week and `previous_7d` is the
true prior-week count. -/
theorem C3_growth_amended :
    ∀ ds : List SignupRow, ValidSignups ds →
      (previous_7d ds = 1 ↔ ds.length < 14) ∧
      (14 ≤ ds.length → previous_7d ds = (((ds.drop 7).take 7).map SignupRow.count).sum) ∧
      ((ds.take 14).map SignupRow.daysAgo = List.range 14 →
        previous_7d ds = truePriorWeekCount ds) := by
  intro ds hvalid
  obtain ⟨hpw, hbound⟩ := hvalid
  refine ⟨⟨?_, ?_⟩, ?_, ?_⟩
  · -- previous_7d = 1 forces fewer than 14 rows
    intro h1
    by_contra hlen
    push_neg at hlen
    rw [previous_7d, if_pos hlen] at h1
    have hlen7 : (((ds.drop 7).take 7).map SignupRow.count).length = 7 := by
      simp only [List.length_map, List.length_take, List.length_drop]
      omega
    have hone : ∀ x ∈ ((ds.drop 7).take 7).map SignupRow.count, 1 ≤ x := by
      intro x hx
      rcases List.mem_map.mp hx with ⟨r, hr, hxr⟩
      have hrds : r ∈ ds := List.mem_of_mem_drop (List.mem_of_mem_take hr)
      rw [← hxr]
      exact (hbound r hrds).1
    have hsum := List.length_le_sum_of_one_le _ hone
    omega
  · intro hlt
    rw [previous_7d, if_neg (by omega)]
  · intro hge
    rw [previous_7d, if_pos hge]
  · intro h14
    have hlentake : (ds.take 14).length = 14 := by
      have hmaplen := congrArg List.length h14
      simpa using hmaplen
    have hlen : 14 ≤ ds.length := by
      rw [List.length_take] at hlentake
      omega
    rw [previous_7d, if_pos hlen, truePriorWeekCount]
    have hsplit : ds = ds.take 14 ++ ds.drop 14 := (List.take_append_drop 14 ds).symm
    have h13 : ∃ a ∈ ds.take 14, a.daysAgo = 13 := by
      have hmem : (13 : Nat) ∈ (ds.take 14).map SignupRow.daysAgo := by rw [h14]; simp
      rcases List.mem_map.mp hmem with ⟨a, ha, h13a⟩
      exact ⟨a, ha, h13a⟩
    have hrest : ∀ b ∈ ds.drop 14, 14 ≤ b.daysAgo := by
      rcases h13 with ⟨a, hamem, ha13⟩
      intro b hb
      have hcross := (List.pairwise_append.mp (hsplit ▸ hpw)).2.2
      have hab := hcross a hamem b hb
      omega
    have hfilter_rest :
        (ds.drop 14).filter (fun r => decide (7 ≤ r.daysAgo ∧ r.daysAgo < 14)) = [] := by
      rw [List.filter_eq_nil_iff]
      intro r hr
      have hge14 := hrest r hr
      simp only [decide_eq_true_eq, not_and]
      omega
    have htake7 : (ds.take 14).take 7 = ds.take 7 := by
      rw [List.take_take]
      norm_num
    have hdrop7 : (ds.take 14).drop 7 = (ds.drop 7).take 7 := by rw [List.drop_take]
    have hsplit14 : ds.take 14 = ds.take 7 ++ (ds.drop 7).take 7 := by
      conv_lhs => rw [← List.take_append_drop 7 (ds.take 14)]
      rw [htake7, hdrop7]
    have hr14 : List.range 14 = List.range 7 ++ (List.range 7).map (7 + ·) := by
      simpa using List.range_add 7 7
    have hmaps : (ds.take 7).map SignupRow.daysAgo = List.range 7 ∧
        ((ds.drop 7).take 7).map SignupRow.daysAgo = (List.range 7).map (7 + ·) := by
      have heq := h14
      rw [hsplit14, List.map_append, hr14] at heq
      refine List.append_inj heq ?_
      simp only [List.length_map, List.length_take, List.length_range]
      omega
    have hfront : (ds.take 7).filter (fun r => decide (7 ≤ r.daysAgo ∧ r.daysAgo < 14)) = [] := by
      rw [List.filter_eq_nil_iff]
      intro r hr
      have hmem : r.daysAgo ∈ List.range 7 := by
        rw [← hmaps.1]; exact List.mem_map_of_mem _ hr
      have hlt7 := List.mem_range.mp hmem
      simp only [decide_eq_true_eq, not_and]
      omega
    have hmid : ((ds.drop 7).take 7).filter (fun r => decide (7 ≤ r.daysAgo ∧ r.daysAgo < 14)) =
        (ds.drop 7).take 7 := by
      rw [List.filter_eq_self]
      intro r hr
      have hmem : r.daysAgo ∈ (List.range 7).map (7 + ·) := by
        rw [← hmaps.2]; exact List.mem_map_of_mem _ hr
      rcases List.mem_map.mp hmem with ⟨k, hk, hkr⟩
      have hk7 := List.mem_range.mp hk
      simp only [decide_eq_true_eq]
      omega
    conv_rhs => rw [hsplit]
    rw [List.filter_append, hfilter_rest, List.append_nil, hsplit14, List.filter_append,
      hfront, hmid, List.nil_append]

/-- Witness for C3 (amended) on 14 consecutive signup days: the positional
window then is the true prior week. -/
theorem C3_growth_amended_witness :
    ValidSignups sampleSignups14 ∧
    (sampleSignups14.take 14).map SignupRow.daysAgo = List.range 14 ∧
    previous_7d sampleSignups14 = truePriorWeekCount sampleSignups14 := by
  have h := C3_growth_amended sampleSignups14 (by decide)
  exact ⟨by decide, by decide, h.2.2 (by decide)⟩


/-! ## Claims C1, C8, C10 — the deletion processor -/

theorem process_deletion_not_found {db : CareDb} {p : String} {now : Nat}
    (hsel : select_pending_hash db p = none) :
    process_deletion true db p now none =
      { db := db, resp := DeletionResp.notFound "Request not found",
        conn := { opened := true, closed := true } } := by
  simp [process_deletion, hsel]

theorem process_deletion_success {db : CareDb} {p : String} {now : Nat} {h : String}
    (hsel : select_pending_hash db p = some h) :
    process_deletion true db p now none =
      { db := complete_requests (delete_patients (delete_reminders
          (delete_medications db h) h) h) p now,
        resp := DeletionResp.ok, conn := { opened := true, closed := true } } := by
  simp [process_deletion, hsel, runStmts]

theorem select_pending_after_complete (db : CareDb) (p : String) (now : Nat) :
    select_pending_hash (complete_requests db p now) p = none := by
  rw [select_pending_hash, complete_requests]
  have hnil : (db.deletion_requests.map (fun r =>
      if r.patient_code = p then { r with status := "completed", processed_at := some now }
      else r)).filter (fun r => decide (r.patient_code = p ∧ r.status = "pending")) = [] := by
    rw [List.filter_eq_nil_iff]
    intro x hx
    rcases List.mem_map.mp hx with ⟨r0, hr0, hfx⟩
    by_cases h0 : r0.patient_code = p
    · rw [← hfx]; simp [h0]
    · rw [← hfx]; simp [h0]
  rw [hnil]
  rfl

/-- C1: when a pending request exists, a fault-free run deletes every
medications, reminders and patients row carrying the request's hash and
marks every request row for the code completed with a non-null
`processed_at`; and if any of the five statements (the select or the four
mutations) raises, the committed state is exactly the original one — the
transaction is all-or-nothing. -/
theorem C1_deletion_atomic :
    ∀ (db : CareDb) (patient_code : String) (now : Nat) (h : String),
      select_pending_hash db patient_code = some h →
      ((process_deletion true db patient_code now none).resp = DeletionResp.ok ∧
       h ∉ (process_deletion true db patient_code now none).db.medications ∧
       h ∉ (process_deletion true db patient_code now none).db.reminders ∧
       h ∉ (process_deletion true db patient_code now none).db.patients ∧
       (∀ r ∈ (process_deletion true db patient_code now none).db.deletion_requests,
         r.patient_code = patient_code →
           r.status = "completed" ∧ r.processed_at = some now)) ∧
      (∀ i : Nat, i < 5 →
        (process_deletion true db patient_code now (some i)).db = db ∧
        (process_deletion true db patient_code now (some i)).resp ≠ DeletionResp.ok) := by
  intro db p now h hsel
  constructor
  · rw [process_deletion_success hsel]
    refine ⟨rfl, ?_, ?_, ?_, ?_⟩
    · simp [complete_requests, delete_patients, delete_reminders, delete_medications,
        List.mem_filter]
    · simp [complete_requests, delete_patients, delete_reminders, delete_medications,
        List.mem_filter]
    · simp [complete_requests, delete_patients, delete_reminders, delete_medications,
        List.mem_filter]
    · intro r hr hrp
      simp only [complete_requests, delete_patients, delete_reminders,
        delete_medications] at hr
      rcases List.mem_map.mp hr with ⟨r0, hr0, hfr⟩
      by_cases h0 : r0.patient_code = p
      · rw [← hfr]; simp [h0]
      · rw [← hfr] at hrp; simp [h0] at hrp
  · intro i hi
    interval_cases i <;>
      (constructor <;> simp [process_deletion, hsel, runStmts])

/-- Witness for C1 on the sample database: the fault-free run succeeds and
purges `H1`; the run whose third statement raises leaves the database
untouched. -/
theorem C1_deletion_atomic_witness :
    select_pending_hash sampleCareDb "P1" = some "H1" ∧
    (process_deletion true sampleCareDb "P1" 99 none).resp = DeletionResp.ok ∧
    "H1" ∉ (process_deletion true sampleCareDb "P1" 99 none).db.medications ∧
    (2 < 5 ∧ (process_deletion true sampleCareDb "P1" 99 (some 2)).db = sampleCareDb) := by
  have h := C1_deletion_atomic sampleCareDb "P1" 99 "H1" (by decide)
  exact ⟨by decide, h.1.1, h.1.2.1, by decide, (h.2 2 (by decide)).1⟩

/-- C8: when no pending request matches the patient code the endpoint
answers 404 and leaves every table unchanged; and after a successful
processing no pending row for the code remains, so a second processing of
the same code answers 404 and again changes nothing. -/
theorem C8_not_found :
    (∀ (db : CareDb) (patient_code : String) (now : Nat),
      select_pending_hash db patient_code = none →
      process_deletion true db patient_code now none =
        { db := db, resp := DeletionResp.notFound "Request not found",
          conn := { opened := true, closed := true } }) ∧
    (∀ (db : CareDb) (patient_code : String) (now now2 : Nat) (h : String),
      select_pending_hash db patient_code = some h →
      select_pending_hash (process_deletion true db patient_code now none).db patient_code =
        none ∧
      process_deletion true (process_deletion true db patient_code now none).db
          patient_code now2 none =
        { db := (process_deletion true db patient_code now none).db,
          resp := DeletionResp.notFound "Request not found",
          conn := { opened := true, closed := true } }) := by
  constructor
  · intro db p now hsel
    exact process_deletion_not_found hsel
  · intro db p now now2 h hsel
    have hafter : select_pending_hash (process_deletion true db p now none).db p = none := by
      rw [process_deletion_success hsel]
      exact select_pending_after_complete _ p now
    exact ⟨hafter, process_deletion_not_found hafter⟩

/-- Witness for C8: an unknown code is a 404 on the untouched sample
database, and after processing `P1` once no pending `P1` request remains. -/
theorem C8_not_found_witness :
    select_pending_hash sampleCareDb "P9" = none ∧
    process_deletion true sampleCareDb "P9" 3 none =
      { db := sampleCareDb, resp := DeletionResp.notFound "Request not found",
        conn := { opened := true, closed := true } } ∧
    select_pending_hash sampleCareDb "P1" = some "H1" ∧
    select_pending_hash (process_deletion true sampleCareDb "P1" 99 none).db "P1" = none := by
  have h1 := C8_not_found.1 sampleCareDb "P9" 3 (by decide)
  have h2 := C8_not_found.2 sampleCareDb "P1" 99 100 "H1" (by decide)
  exact ⟨by decide, h1, by decide, h2.1⟩

/-- C10: the final status-transition statement matches on the patient code
alone, with no filter on the current status — a request row already in
status completed is rewritten too, its `processed_at` overwritten with the
current time; the update touches rows in place (the table's row count is
unchanged). -/
theorem C10_update_unfiltered :
    ∀ (db : CareDb) (patient_code : String) (now : Nat) (h : String) (q : DeletionRequestRow),
      select_pending_hash db patient_code = some h →
      q ∈ db.deletion_requests → q.patient_code = patient_code → q.status = "completed" →
      ({ q with status := "completed", processed_at := some now } ∈
        (process_deletion true db patient_code now none).db.deletion_requests) ∧
      (process_deletion true db patient_code now none).db.deletion_requests.length =
        db.deletion_requests.length := by
  intro db p now h q hsel hq hqp hqs
  rw [process_deletion_success hsel]
  constructor
  · have hfq : (fun r => if r.patient_code = p then
        { r with status := "completed", processed_at := some now } else r) q =
        { q with status := "completed", processed_at := some now } := by simp [hqp]
    have hmem := List.mem_map_of_mem (fun r => if r.patient_code = p then
        { r with status := "completed", processed_at := some now } else r) hq
    rw [hfq] at hmem
    exact hmem
  · simp [complete_requests, delete_patients, delete_reminders, delete_medications]

/-- Witness for C10: the already-completed `P1` row of the sample database,
processed at 50, reappears with `processed_at` overwritten to 99. -/
theorem C10_update_unfiltered_witness :
    select_pending_hash sampleCareDb "P1" = some "H1" ∧
    sampleCompletedRow ∈ sampleCareDb.deletion_requests ∧
    sampleCompletedRow.status = "completed" ∧
    sampleCompletedRow.processed_at = some 50 ∧
    ({ sampleCompletedRow with status := "completed", processed_at := some 99 } ∈
      (process_deletion true sampleCareDb "P1" 99 none).db.deletion_requests) := by
  have h := C10_update_unfiltered sampleCareDb "P1" 99 "H1" sampleCompletedRow
    (by decide) (by decide) (by decide) (by decide)
  exact ⟨by decide, by decide, by decide, by decide, h.1⟩

/-! ## Claim C9 — connection release -/

/-- C9 (code evaluated at the failing input): when a query raises after the
connection was opened, the handler's `except` branch returns without ever
calling `conn.close()` — in `fetch_user_metrics` and in `process_deletion`
alike — whereas the fault-free path does close it.  The claim that every
exit path releases the connection is false of the code. -/
theorem C9_connection_leak :
    (fetch_user_metrics (Except.error "query failed")).2 =
      { opened := true, closed := false } ∧
    (process_deletion true sampleCareDb "P1" 77 (some 2)).conn =
      { opened := true, closed := false } ∧
    (process_deletion true sampleCareDb "P1" 77 none).conn =
      { opened := true, closed := true } := by
  refine ⟨rfl, by decide, by decide⟩


/-! ## Claim C2 — collector failure boundaries -/

/-- C2 (counterexample): an exception inside the cloud-billing collector is
swallowed and zeroed, but the returned mapping carries no `error` field at
all — the failure text lands in `source` instead — so not every collector's
sentinel carries an `error` string field. -/
theorem C2_error_field_counterexample :
    (fetch_gcp_billing sampleGcpConfig (Except.error "boom")).error = none ∧
    (fetch_gcp_billing sampleGcpConfig (Except.error "boom")).total = 0 ∧
    (fetch_gcp_billing sampleGcpConfig (Except.error "boom")).source = "Error: boom" :=
  ⟨rfl, rfl, rfl⟩

/-- C2 (amended): every collector catches every exception at its boundary
and returns its zero-valued mapping; all of them annotate it with the
exception text in an `error` field except the cloud-billing collector,
which reports it in `source` and has no `error` key; and the aggregation
endpoint answers 200 to an authenticated caller whatever the collectors'
outcomes. -/
theorem C2_collector_boundary :
    ∀ e : String,
      (∀ cfg : GcpConfig,
        cfg.project_id ≠ "" → cfg.billing_account ≠ "" → cfg.dataset ≠ "" →
        (fetch_gcp_billing cfg (Except.error e)).total = 0 ∧
        (fetch_gcp_billing cfg (Except.error e)).error = none ∧
        (fetch_gcp_billing cfg (Except.error e)).source = "Error: " ++ e) ∧
      (∀ sid tok : String, sid ≠ "" → tok ≠ "" →
        ∀ bal : Except String ℚ,
        (fetch_twilio_metrics sid tok (Except.error e) bal).cost = 0 ∧
        (fetch_twilio_metrics sid tok (Except.error e) bal).error = some e) ∧
      (fetch_gemini_metrics (Except.error e)).cost = 0 ∧
      (fetch_gemini_metrics (Except.error e)).error = some e ∧
      (fetch_cloud_run_errors (Except.error e)).errors_7d = 0 ∧
      (fetch_cloud_run_errors (Except.error e)).error = some e ∧
      (fetch_database_metrics (Except.error e)).size_gb = 0 ∧
      (fetch_database_metrics (Except.error e)).error = some e ∧
      (fetch_user_metrics (Except.error e)).1.total_users = 0 ∧
      (fetch_user_metrics (Except.error e)).1.error = some e ∧
      (fetch_satisfaction_metrics (Except.error e)).scores = [] ∧
      (fetch_satisfaction_metrics (Except.error e)).error = some e ∧
      (fetch_dau_metrics (Except.error e)).daily = [] ∧
      (fetch_dau_metrics (Except.error e)).error = some e ∧
      (fetch_manual_costs (Except.error e)).total = 0 ∧
      (fetch_manual_costs (Except.error e)).error = some e ∧
      (fetch_health_status (Except.error e)).overall = "unhealthy" ∧
      (fetch_health_status (Except.error e)).error = some e ∧
      (∀ w : ExternalWorld, ∃ body, get_all_metrics true w = MetricsResp.ok body) := by
  intro e
  refine ⟨?_, ?_, rfl, rfl, rfl, rfl, rfl, rfl, rfl, rfl, rfl, rfl, rfl, rfl, rfl, rfl,
    rfl, rfl, ?_⟩
  · intro cfg h1 h2 h3
    rw [fetch_gcp_billing, if_neg (by simp [h1, h2, h3])]
    exact ⟨rfl, rfl, rfl⟩
  · intro sid tok h1 h2 bal
    rw [fetch_twilio_metrics, if_neg (by simp [h1, h2])]
    exact ⟨rfl, rfl⟩
  · intro w
    exact ⟨_, rfl⟩

/-- Witness for C2 (amended) at the exception "boom" and a world in which
every fetch raises: the dashboard still answers 200. -/
theorem C2_collector_boundary_witness :
    sampleGcpConfig.project_id ≠ "" ∧ sampleGcpConfig.billing_account ≠ "" ∧
    sampleGcpConfig.dataset ≠ "" ∧
    (fetch_gcp_billing sampleGcpConfig (Except.error "boom")).error = none ∧
    (fetch_gcp_billing sampleGcpConfig (Except.error "boom")).source = "Error: " ++ "boom" ∧
    (fetch_twilio_metrics "sid" "tok" (Except.error "boom") (Except.error "z")).error =
      some "boom" ∧
    (∃ body, get_all_metrics true sampleWorld = MetricsResp.ok body) := by
  have h := C2_collector_boundary "boom"
  refine ⟨by decide, by decide, by decide,
    (h.1 sampleGcpConfig (by decide) (by decide) (by decide)).2.1,
    (h.1 sampleGcpConfig (by decide) (by decide) (by decide)).2.2,
    (h.2.1 "sid" "tok" (by decide) (by decide) (Except.error "z")).2,
    h.2.2.2.2.2.2.2.2.2.2.2.2.2.2.2.2.2.2 sampleWorld⟩

/-! ## Claim C6 — breakeven_users -/

/-- C6: for every world whose derived total cost is non-negative, the
aggregation endpoint's `breakeven_users` is the floor of
`total_costs / 5.0` (Python's `int()` truncates toward zero, which is the
floor on non-negative input). -/
theorem C6_breakeven_floor :
    ∀ w : ExternalWorld,
      0 ≤ total_costs (fetch_gcp_billing w.gcpCfg w.gcpQuery)
          (fetch_twilio_metrics w.twilioSid w.twilioAuthTok w.twilioCalls w.twilioBalance)
          (fetch_gemini_metrics w.geminiUsage) (fetch_manual_costs w.manualQuery) →
      responseBreakeven (get_all_metrics true w) =
        some ⌊total_costs (fetch_gcp_billing w.gcpCfg w.gcpQuery)
          (fetch_twilio_metrics w.twilioSid w.twilioAuthTok w.twilioCalls w.twilioBalance)
          (fetch_gemini_metrics w.geminiUsage) (fetch_manual_costs w.manualQuery) / 5⌋ := by
  intro w htc
  rw [get_all_metrics, if_neg (by simp)]
  rw [responseBreakeven]
  rw [breakeven_users, if_pos (by norm_num), pyInt, if_pos (div_nonneg htc (by norm_num))]

/-- Witness for C6 at the all-failures world, whose total cost is 0. -/
theorem C6_breakeven_floor_witness :
    0 ≤ total_costs (fetch_gcp_billing sampleWorld.gcpCfg sampleWorld.gcpQuery)
        (fetch_twilio_metrics sampleWorld.twilioSid sampleWorld.twilioAuthTok
          sampleWorld.twilioCalls sampleWorld.twilioBalance)
        (fetch_gemini_metrics sampleWorld.geminiUsage)
        (fetch_manual_costs sampleWorld.manualQuery) ∧
    responseBreakeven (get_all_metrics true sampleWorld) =
      some ⌊total_costs (fetch_gcp_billing sampleWorld.gcpCfg sampleWorld.gcpQuery)
        (fetch_twilio_metrics sampleWorld.twilioSid sampleWorld.twilioAuthTok
          sampleWorld.twilioCalls sampleWorld.twilioBalance)
        (fetch_gemini_metrics sampleWorld.geminiUsage)
        (fetch_manual_costs sampleWorld.manualQuery) / 5⌋ := by
  have hq : 0 ≤ total_costs (fetch_gcp_billing sampleWorld.gcpCfg sampleWorld.gcpQuery)
      (fetch_twilio_metrics sampleWorld.twilioSid sampleWorld.twilioAuthTok
        sampleWorld.twilioCalls sampleWorld.twilioBalance)
      (fetch_gemini_metrics sampleWorld.geminiUsage)
      (fetch_manual_costs sampleWorld.manualQuery) := by
    simp [total_costs, automated_costs, fetch_gcp_billing, fetch_twilio_metrics,
      fetch_gemini_metrics, fetch_manual_costs, sampleWorld, sampleGcpConfig]
  exact ⟨hq, C6_breakeven_floor sampleWorld hq⟩

/-! ## Claim C7 — per_user_cost -/

/-- C7: the aggregation endpoint's per-user cost is `total_costs /
total_users` when users exist and 0 when there are none (the division is
guarded, so a zero user count cannot fault), where `total_costs` is the
automated costs plus the manual total and the automated costs are the
cloud-billing total plus the telephony and LLM costs; the JSON field
carries that value rounded to two decimals. -/
theorem C7_per_user_cost :
    ∀ w : ExternalWorld,
      (0 < (fetch_user_metrics w.userQuery).1.total_users →
        per_user_cost (total_costs (fetch_gcp_billing w.gcpCfg w.gcpQuery)
            (fetch_twilio_metrics w.twilioSid w.twilioAuthTok w.twilioCalls w.twilioBalance)
            (fetch_gemini_metrics w.geminiUsage) (fetch_manual_costs w.manualQuery))
          (fetch_user_metrics w.userQuery).1.total_users =
          total_costs (fetch_gcp_billing w.gcpCfg w.gcpQuery)
            (fetch_twilio_metrics w.twilioSid w.twilioAuthTok w.twilioCalls w.twilioBalance)
            (fetch_gemini_metrics w.geminiUsage) (fetch_manual_costs w.manualQuery) /
            ((fetch_user_metrics w.userQuery).1.total_users : ℚ)) ∧
      ((fetch_user_metrics w.userQuery).1.total_users = 0 →
        per_user_cost (total_costs (fetch_gcp_billing w.gcpCfg w.gcpQuery)
            (fetch_twilio_metrics w.twilioSid w.twilioAuthTok w.twilioCalls w.twilioBalance)
            (fetch_gemini_metrics w.geminiUsage) (fetch_manual_costs w.manualQuery))
          (fetch_user_metrics w.userQuery).1.total_users = 0) ∧
      total_costs (fetch_gcp_billing w.gcpCfg w.gcpQuery)
          (fetch_twilio_metrics w.twilioSid w.twilioAuthTok w.twilioCalls w.twilioBalance)
          (fetch_gemini_metrics w.geminiUsage) (fetch_manual_costs w.manualQuery) =
        automated_costs (fetch_gcp_billing w.gcpCfg w.gcpQuery)
          (fetch_twilio_metrics w.twilioSid w.twilioAuthTok w.twilioCalls w.twilioBalance)
          (fetch_gemini_metrics w.geminiUsage) +
          (fetch_manual_costs w.manualQuery).total ∧
      automated_costs (fetch_gcp_billing w.gcpCfg w.gcpQuery)
          (fetch_twilio_metrics w.twilioSid w.twilioAuthTok w.twilioCalls w.twilioBalance)
          (fetch_gemini_metrics w.geminiUsage) =
        (fetch_gcp_billing w.gcpCfg w.gcpQuery).total +
          (fetch_twilio_metrics w.twilioSid w.twilioAuthTok w.twilioCalls w.twilioBalance).cost +
          (fetch_gemini_metrics w.geminiUsage).cost ∧
      responsePerUserCost (get_all_metrics true w) =
        some (round2 (per_user_cost (total_costs (fetch_gcp_billing w.gcpCfg w.gcpQuery)
            (fetch_twilio_metrics w.twilioSid w.twilioAuthTok w.twilioCalls w.twilioBalance)
            (fetch_gemini_metrics w.geminiUsage) (fetch_manual_costs w.manualQuery))
          (fetch_user_metrics w.userQuery).1.total_users)) := by
  intro w
  refine ⟨?_, ?_, rfl, rfl, ?_⟩
  · intro hpos
    rw [per_user_cost, if_pos hpos]
  · intro hzero
    rw [per_user_cost, hzero, if_neg (by norm_num)]
  · rw [get_all_metrics, if_neg (by simp)]
    rw [responsePerUserCost]

/-- Witness for C7 at a world with four users. -/
theorem C7_per_user_cost_witness :
    0 < (fetch_user_metrics sampleWorldUsers.userQuery).1.total_users ∧
    per_user_cost (total_costs (fetch_gcp_billing sampleWorldUsers.gcpCfg sampleWorldUsers.gcpQuery)
        (fetch_twilio_metrics sampleWorldUsers.twilioSid sampleWorldUsers.twilioAuthTok
          sampleWorldUsers.twilioCalls sampleWorldUsers.twilioBalance)
        (fetch_gemini_metrics sampleWorldUsers.geminiUsage)
        (fetch_manual_costs sampleWorldUsers.manualQuery))
      (fetch_user_metrics sampleWorldUsers.userQuery).1.total_users =
      total_costs (fetch_gcp_billing sampleWorldUsers.gcpCfg sampleWorldUsers.gcpQuery)
        (fetch_twilio_metrics sampleWorldUsers.twilioSid sampleWorldUsers.twilioAuthTok
          sampleWorldUsers.twilioCalls sampleWorldUsers.twilioBalance)
        (fetch_gemini_metrics sampleWorldUsers.geminiUsage)
        (fetch_manual_costs sampleWorldUsers.manualQuery) /
        ((fetch_user_metrics sampleWorldUsers.userQuery).1.total_users : ℚ) ∧
    responsePerUserCost (get_all_metrics true sampleWorldUsers) =
      some (round2 (per_user_cost
        (total_costs (fetch_gcp_billing sampleWorldUsers.gcpCfg sampleWorldUsers.gcpQuery)
          (fetch_twilio_metrics sampleWorldUsers.twilioSid sampleWorldUsers.twilioAuthTok
            sampleWorldUsers.twilioCalls sampleWorldUsers.twilioBalance)
          (fetch_gemini_metrics sampleWorldUsers.geminiUsage)
          (fetch_manual_costs sampleWorldUsers.manualQuery))
        (fetch_user_metrics sampleWorldUsers.userQuery).1.total_users)) := by
  have h := C7_per_user_cost sampleWorldUsers
  exact ⟨by decide, h.1 (by decide), h.2.2.2.2⟩

end AdminApp
